import Mathlib

/-!
Verification development for the procedural scene composition and animation
core of the layered ornamental scene (src/index.tsx).

The embedding below translates the per-frame animation callbacks and the
geometry/placement construction of the source into pure Lean functions over
real numbers. Each frame of the render loop is modelled by one application
of `tick`, which plays the role the specification assigns to the
AnimationScheduler: it advances the scene clock by the frame delta and runs
every animated node's update, exactly as the useFrame callbacks in the
source do.
-/

namespace TreeSpec

/-- Immutable 3-component vector, the THREE.Vector3 values pushed into the
ribbon curve and the ornament positions. -/
structure Vec3 where
  x : ℝ
  y : ℝ
  z : ℝ

/-- THREE.MathUtils.lerp, as used by the ribbon radius interpolation:
lerp x y t = x + (y - x) * t. -/
def lerp (x y t : ℝ) : ℝ := x + (y - x) * t

/-! Section: Ribbon curve construction (Ribbon component, src/index.tsx lines 57-85)

The Ribbon component builds the control points of the wrapping spiral with a
loop over i = 0..steps where steps is the local constant 100. The loop body
is embedded as `ribbonPoint`; the full point list as `buildWrapCurvePoints`,
parameterised over the step count, and `ribbonCurve` instantiates it at the
source's fixed steps = 100. -/

/-- The radial offset constant rOffset = 0.2 of the Ribbon component. -/
def rOffset : ℝ := 0.2

/-- Spiral angle at sample i of the ribbon: theta = t * PI * 2 * turns with
t = i / steps. -/
noncomputable def ribbonAngle (turns : ℝ) (steps i : ℕ) : ℝ :=
  ((i : ℝ) / (steps : ℝ)) * Real.pi * 2 * turns

/-- One iteration of the Ribbon point loop: t = i/steps, radius
lerp(radiusBottom + rOffset, radiusTop + rOffset, t), angle
t * PI * 2 * turns, y = (t - 0.5) * height, position
(cos(theta) * r, y, sin(theta) * r). -/
noncomputable def ribbonPoint (radiusBottom radiusTop height turns : ℝ)
    (steps i : ℕ) : Vec3 :=
  let t : ℝ := (i : ℝ) / (steps : ℝ)
  let r : ℝ := lerp (radiusBottom + rOffset) (radiusTop + rOffset) t
  let theta : ℝ := ribbonAngle turns steps i
  { x := Real.cos theta * r
    y := (t - 0.5) * height
    z := Real.sin theta * r }

/-- The full list of ribbon control points, i = 0..steps inclusive. -/
noncomputable def buildWrapCurvePoints (radiusBottom radiusTop height turns : ℝ)
    (steps : ℕ) : List Vec3 :=
  (List.range (steps + 1)).map (ribbonPoint radiusBottom radiusTop height turns steps)

/-- The source fixes the sample count: const steps = 100. -/
def ribbonSteps : ℕ := 100

/-- The curve the Ribbon component actually constructs, with the source's
fixed step count. -/
noncomputable def ribbonCurve (radiusBottom radiusTop height turns : ℝ) : List Vec3 :=
  buildWrapCurvePoints radiusBottom radiusTop height turns ribbonSteps

/-- A control-point list forms a well-formed curve (the CatmullRom invariant:
at least 2 points). -/
def curveWellFormed (pts : List Vec3) : Prop := 2 ≤ pts.length

/-! Section: Ornament ring placement (TreeLayer ornaments, src/index.tsx lines 135-156)

TreeLayer lays out count = 6 + layerIndex * 2 ornaments on a ring of radius
1.3: angle = (i / count) * PI * 2, x = cos(angle) * radius,
z = sin(angle) * radius, y = -0.8 + sin(angle * 3) * 0.2, and scale
0.6 + Math.random() * 0.4. The loop body is embedded with the scalar
constants lifted to parameters (`placeAroundRing`); `ornamentRing`
instantiates them at the source's literals. Math.random() is an unseeded
ambient source: it is modelled as a stream rand : ℕ → ℝ supplying the draw
consumed at loop iteration i. -/

/-- Ring angle of the i-th ornament: (i / count) * PI * 2. -/
noncomputable def ringAngle (count i : ℕ) : ℝ :=
  ((i : ℝ) / (count : ℝ)) * Real.pi * 2

/-- One iteration of the ornament placement loop (position part). -/
noncomputable def ringPoint (count : ℕ) (radius vOff vAmp vFreq : ℝ) (i : ℕ) : Vec3 :=
  { x := Real.cos (ringAngle count i) * radius
    y := vOff + Real.sin (ringAngle count i * vFreq) * vAmp
    z := Real.sin (ringAngle count i) * radius }

/-- The positions of all count ornaments around the ring. -/
noncomputable def placeAroundRing (count : ℕ) (radius vOff vAmp vFreq : ℝ) : List Vec3 :=
  (List.range count).map (ringPoint count radius vOff vAmp vFreq)

/-- Ornament count of a layer: 6 + layerIndex * 2. -/
def ornamentCount (layerIndex : ℕ) : ℕ := 6 + layerIndex * 2

/-- Ornament scale at iteration i: 0.6 + Math.random() * 0.4, with the
Math.random() draw taken from the ambient stream. -/
def ornamentScale (rand : ℕ → ℝ) (i : ℕ) : ℝ := 0.6 + rand i * 0.4

/-- The (position, scale) sequence a TreeLayer computes for its ornaments,
with the source's literal radius 1.3, base offset -0.8, wave amplitude 0.2
and wave frequency 3. -/
noncomputable def placeOrnaments (layerIndex : ℕ) (rand : ℕ → ℝ) :
    List (Vec3 × ℝ) :=
  (List.range (ornamentCount layerIndex)).map
    (fun i => (ringPoint (ornamentCount layerIndex) 1.3 (-0.8) 0.2 3 i,
               ornamentScale rand i))

/-! Section: Animated scene state and per-frame tick

Animated state per node, from the useFrame callbacks:
- TreeLayer (lines 126-132): rotation.y += delta * rotationSpeed * dir * 0.5
  with dir = +1 for even layerIndex, -1 for odd.
- Ribbon (lines 87-92): rotation.y = -elapsed * 0.15 (set each frame).
- Ornament (lines 106-111): rotation.y += 0.01, rotation.z += 0.005
  (fixed per-frame increments, delta unused).
- StarTopper (lines 191-197): rotation.y = elapsed * 0.5,
  uniform scale = 1 + sin(elapsed * 2) * 0.1 (set each frame).

A frame is `tick scene dt`: the scene clock advances by dt and every
callback runs with the advanced elapsed time, exactly as the render loop
invokes the useFrame callbacks. No callback inspects dt for validity. -/

/-- Animated state of one ornament: yaw (rotation.y) and roll (rotation.z). -/
structure OrnamentState where
  yaw : ℝ
  roll : ℝ

/-- Animated state of one tree layer node together with its configuration. -/
structure LayerNode where
  layerIndex : ℕ
  rotationSpeed : ℝ
  yaw : ℝ
  ribbonYaw : ℝ
  ornaments : List OrnamentState

/-- Animated state of the star topper: yaw and uniform scale. -/
structure TopperState where
  yaw : ℝ
  scale : ℝ

/-- The animated scene: the global clock, the stack of layer nodes and the
topper. Static nodes (cone, trim ring, base) carry no animation rule and
never change. -/
structure Scene where
  elapsedTime : ℝ
  layers : List LayerNode
  topper : TopperState

/-- Rotation direction by layer parity: even layerIndex +1, odd -1. -/
def layerDir (layerIndex : ℕ) : ℝ := if layerIndex % 2 = 0 then 1 else -1

/-- The Ornament useFrame body: rotation.y += 0.01; rotation.z += 0.005. -/
def tickOrnament (o : OrnamentState) : OrnamentState :=
  { yaw := o.yaw + 0.01, roll := o.roll + 0.005 }

/-- The StarTopper scale formula: 1 + sin(t * 2) * 0.1. -/
noncomputable def topperScale (t : ℝ) : ℝ := 1 + Real.sin (t * 2) * 0.1

/-- One frame of a layer subtree: the TreeLayer yaw update, the Ribbon yaw
set from the advanced elapsed time tNew, and every ornament's fixed
increment. -/
def tickLayer (tNew dt : ℝ) (l : LayerNode) : LayerNode :=
  { l with
    yaw := l.yaw + dt * l.rotationSpeed * layerDir l.layerIndex * 0.5
    ribbonYaw := -(tNew * 0.15)
    ornaments := l.ornaments.map tickOrnament }

/-- One frame of the whole scene: elapsedTime += dt, then every animated
node's callback runs with the advanced clock. -/
noncomputable def tick (s : Scene) (dt : ℝ) : Scene :=
  let tNew := s.elapsedTime + dt
  { elapsedTime := tNew
    layers := s.layers.map (tickLayer tNew dt)
    topper := { yaw := tNew * 0.5, scale := topperScale tNew } }

/-- A sequence of frames with the given per-frame deltas. -/
noncomputable def tickSeq (s : Scene) (dts : List ℝ) : Scene := dts.foldl tick s

/-- N frames of a constant delta dt. -/
noncomputable def tickN (s : Scene) (dt : ℝ) : ℕ → Scene
  | 0 => s
  | n + 1 => tick (tickN s dt n) dt

/-- A freshly mounted layer: yaw and ribbon yaw 0, rotationSpeed at its
default 0.2, ornaments at the default orientation (0, 0). -/
def mkLayer (layerIndex : ℕ) : LayerNode :=
  { layerIndex := layerIndex
    rotationSpeed := 0.2
    yaw := 0
    ribbonYaw := 0
    ornaments := List.replicate (ornamentCount layerIndex) { yaw := 0, roll := 0 } }

/-- The assembled scene of src/index.tsx lines 273-300: four layers with
layerIndex 3, 2, 1, 0 (bottom to top) and the star topper, at their mount
state with the clock at 0. -/
def christmasTree : Scene :=
  { elapsedTime := 0
    layers := [mkLayer 3, mkLayer 2, mkLayer 1, mkLayer 0]
    topper := { yaw := 0, scale := 1 } }

/-! Section: Helper lemmas -/

lemma tickSeq_nil (s : Scene) : tickSeq s [] = s := rfl

lemma tickSeq_cons (s : Scene) (d : ℝ) (ds : List ℝ) :
    tickSeq s (d :: ds) = tickSeq (tick s d) ds := rfl

/-- Evolution of one layer node under a sequence of frames: configuration is
preserved, the layer yaw integrates delta * speed * dir * 0.5 additively,
and every ornament advances by the fixed per-frame increments once per
frame. -/
lemma tickSeq_layer_evolution (dts : List ℝ) (s : Scene) (p : ℕ) (l : LayerNode)
    (hp : s.layers[p]? = some l) :
    ∃ l2, (tickSeq s dts).layers[p]? = some l2 ∧
      l2.layerIndex = l.layerIndex ∧
      l2.rotationSpeed = l.rotationSpeed ∧
      l2.yaw = l.yaw + dts.sum * (l.rotationSpeed * layerDir l.layerIndex * 0.5) ∧
      l2.ornaments = l.ornaments.map (fun o =>
        { yaw := o.yaw + 0.01 * (dts.length : ℝ)
          roll := o.roll + 0.005 * (dts.length : ℝ) }) := by
  induction dts generalizing s l with
  | nil =>
      refine ⟨l, hp, rfl, rfl, by simp, by simp⟩
  | cons d ds ih =>
      have hp2 : (tick s d).layers[p]? =
          some (tickLayer (s.elapsedTime + d) d l) := by
        simp [tick, List.getElem?_map, hp]
      obtain ⟨l2, hget, hidx, hspd, hyaw, horn⟩ :=
        ih (tick s d) (tickLayer (s.elapsedTime + d) d l) hp2
      refine ⟨l2, ?_, ?_, ?_, ?_, ?_⟩
      · simpa [tickSeq_cons] using hget
      · simpa [tickLayer] using hidx
      · simpa [tickLayer] using hspd
      · rw [hyaw]
        simp only [tickLayer, List.sum_cons]
        ring
      · rw [horn]
        simp only [tickLayer, List.map_map, List.length_cons]
        refine List.map_congr_left ?_
        intro o _
        simp only [Function.comp, tickOrnament, OrnamentState.mk.injEq]
        constructor <;> (push_cast; ring)

/-- Rewriting of the ribbon angle used in monotonicity arguments. -/
lemma ribbonAngle_eq (turns : ℝ) (steps i : ℕ) :
    ribbonAngle turns steps i = (i : ℝ) * (Real.pi * 2 * turns / (steps : ℝ)) := by
  unfold ribbonAngle; ring

/-! Section: Claims -/

/-- C9: at every elapsed time t the topper's uniform scale is the sinusoidal
pulse 1 + sin(t * 2) * 0.1, computed directly from t by `tick`, and it stays
within the configured amplitude bounds [0.9, 1.1] for all t. -/
theorem C9_topper_scale :
    (∀ (s : Scene) (dt : ℝ),
      (tick s dt).topper.scale = topperScale (s.elapsedTime + dt)) ∧
    (∀ t : ℝ, 0.9 ≤ topperScale t ∧ topperScale t ≤ 1.1) := by
  refine ⟨fun s dt => rfl, fun t => ?_⟩
  unfold topperScale
  constructor
  · nlinarith [Real.neg_one_le_sin (t * 2)]
  · nlinarith [Real.sin_le_one (t * 2)]

/-- C7: running N frames of a constant positive delta dt and then M more
frames of dt yields exactly the same scene (hence the same transform on
every node) as running N + M frames of dt directly. -/
theorem C7_tick_additive (s : Scene) (dt : ℝ) (hdt : 0 < dt) (N M : ℕ) :
    tickN (tickN s dt N) dt M = tickN s dt (N + M) := by
  induction M with
  | zero => rfl
  | succ M ih => simp [tickN, ih]

/-- C7 witness: the composability law instantiated on the assembled scene
with dt = 1, N = 2, M = 3. -/
theorem C7_witness :
    (0 : ℝ) < 1 ∧ tickN (tickN christmasTree 1 2) 1 3 = tickN christmasTree 1 5 :=
  ⟨by norm_num, C7_tick_additive christmasTree 1 (by norm_num) 2 3⟩

/-- C3 counterexample: the claim says the wrap-curve construction fails at
construction time for negative radii (surfacing an error instead of a
curve). The source performs no validation: at radiusBottom = -1 and
radiusTop = -1 it still produces the full, well-formed 101-point curve, so
no error is ever surfaced; moreover the sample count is the fixed local
constant 100, so a sampleCount below 2 cannot even be supplied. -/
theorem C3_counterexample :
    curveWellFormed (ribbonCurve (-1) (-1) 2.5 3) ∧
    (ribbonCurve (-1) (-1) 2.5 3).length = 101 := by
  constructor <;>
    simp [curveWellFormed, ribbonCurve, buildWrapCurvePoints, ribbonSteps]

/-- C3 amended: the wrap-curve construction performs no input validation at
all: for every configuration, including negative radii, it returns a
well-formed curve of exactly 101 = 100 + 1 points, the sample count being
fixed at the source constant 100 rather than configurable. -/
theorem C3_amended (radiusBottom radiusTop height turns : ℝ) :
    (ribbonCurve radiusBottom radiusTop height turns).length = 101 ∧
    curveWellFormed (ribbonCurve radiusBottom radiusTop height turns) := by
  constructor <;>
    simp [curveWellFormed, ribbonCurve, buildWrapCurvePoints, ribbonSteps]

/-- C5: for every configuration with at least 2 samples and positive turns,
the wrap-curve has exactly steps + 1 control points; point i (at
t = i/steps) sits at angle t * 2pi * turns with radius linearly
interpolated between radiusBottom + rOffset and radiusTop + rOffset,
height (t - 0.5) * height, and Cartesian position
(cos(angle) * radius, y(t), sin(angle) * radius); the first angle is 0, the
last is 2pi * turns, and the angle is strictly increasing in i. -/
theorem C5_buildWrapCurve (radiusBottom radiusTop height turns : ℝ)
    (steps : ℕ) (hs : 2 ≤ steps) (ht : 0 < turns) :
    (buildWrapCurvePoints radiusBottom radiusTop height turns steps).length
        = steps + 1 ∧
    (∀ i, i ≤ steps →
      (buildWrapCurvePoints radiusBottom radiusTop height turns steps)[i]? =
        some { x := Real.cos (((i : ℝ) / (steps : ℝ)) * (2 * Real.pi) * turns) *
                    ((1 - (i : ℝ) / (steps : ℝ)) * (radiusBottom + rOffset) +
                     ((i : ℝ) / (steps : ℝ)) * (radiusTop + rOffset))
               y := ((i : ℝ) / (steps : ℝ) - 0.5) * height
               z := Real.sin (((i : ℝ) / (steps : ℝ)) * (2 * Real.pi) * turns) *
                    ((1 - (i : ℝ) / (steps : ℝ)) * (radiusBottom + rOffset) +
                     ((i : ℝ) / (steps : ℝ)) * (radiusTop + rOffset)) }) ∧
    ribbonAngle turns steps 0 = 0 ∧
    ribbonAngle turns steps steps = 2 * Real.pi * turns ∧
    (∀ i j, i < j → ribbonAngle turns steps i < ribbonAngle turns steps j) := by
  have hsteps0 : (steps : ℝ) ≠ 0 := by
    have : 0 < steps := lt_of_lt_of_le (by norm_num) hs
    exact_mod_cast this.ne'
  have hstepsPos : (0 : ℝ) < (steps : ℝ) := by
    have : 0 < steps := lt_of_lt_of_le (by norm_num) hs
    exact_mod_cast this
  refine ⟨?_, ?_, ?_, ?_, ?_⟩
  · simp [buildWrapCurvePoints]
  · intro i hi
    have hi2 : i < steps + 1 := Nat.lt_succ_of_le hi
    simp only [buildWrapCurvePoints, List.getElem?_map, List.getElem?_range, hi2,
      Option.map_some']
    simp only [ribbonPoint, lerp, ribbonAngle, Option.some.injEq, Vec3.mk.injEq]
    refine ⟨?_, by norm_num, ?_⟩
    · have harg : (i : ℝ) / (steps : ℝ) * Real.pi * 2 * turns =
          (i : ℝ) / (steps : ℝ) * (2 * Real.pi) * turns := by ring
      rw [harg]; ring
    · have harg : (i : ℝ) / (steps : ℝ) * Real.pi * 2 * turns =
          (i : ℝ) / (steps : ℝ) * (2 * Real.pi) * turns := by ring
      rw [harg]; ring
  · simp [ribbonAngle]
  · unfold ribbonAngle
    rw [div_self hsteps0]; ring
  · intro i j hij
    rw [ribbonAngle_eq, ribbonAngle_eq]
    have hmul : (0 : ℝ) < Real.pi * 2 * turns / (steps : ℝ) := by positivity
    exact mul_lt_mul_of_pos_right (by exact_mod_cast hij) hmul

/-- C5 witness: the contract instantiated at the source configuration
radiusBottom = 1.8, radiusTop = 0.1, height = 2.5, turns = 3, steps = 100. -/
theorem C5_witness :
    ((2 ≤ 100) ∧ (0 : ℝ) < 3) ∧
    ((buildWrapCurvePoints 1.8 0.1 2.5 3 100).length = 100 + 1 ∧
     ribbonAngle 3 100 0 = 0 ∧
     ribbonAngle 3 100 100 = 2 * Real.pi * 3 ∧
     ribbonAngle 3 100 4 < ribbonAngle 3 100 7) :=
  ⟨⟨by norm_num, by norm_num⟩,
   (C5_buildWrapCurve 1.8 0.1 2.5 3 100 (by norm_num) (by norm_num)).1,
   (C5_buildWrapCurve 1.8 0.1 2.5 3 100 (by norm_num) (by norm_num)).2.2.1,
   (C5_buildWrapCurve 1.8 0.1 2.5 3 100 (by norm_num) (by norm_num)).2.2.2.1,
   (C5_buildWrapCurve 1.8 0.1 2.5 3 100 (by norm_num) (by norm_num)).2.2.2.2 4 7
     (by norm_num)⟩

/-- C6: for every count the ring placement produces exactly count
placements, the i-th at angle 2pi * i / count with x = cos(angle) * radius,
z = sin(angle) * radius and
y = verticalBaseOffset + sin(angle * verticalWaveFrequency) * amplitude;
count = 0 yields the empty sequence rather than an error. -/
theorem C6_placeAroundRing (count : ℕ) (radius vOff vAmp vFreq : ℝ) :
    (placeAroundRing count radius vOff vAmp vFreq).length = count ∧
    (∀ i, i < count →
      (placeAroundRing count radius vOff vAmp vFreq)[i]? =
        some { x := Real.cos (2 * Real.pi * (i : ℝ) / (count : ℝ)) * radius
               y := vOff + Real.sin (2 * Real.pi * (i : ℝ) / (count : ℝ) * vFreq) * vAmp
               z := Real.sin (2 * Real.pi * (i : ℝ) / (count : ℝ)) * radius }) ∧
    placeAroundRing 0 radius vOff vAmp vFreq = [] := by
  refine ⟨by simp [placeAroundRing], ?_, by simp [placeAroundRing]⟩
  intro i hi
  simp only [placeAroundRing, List.getElem?_map, List.getElem?_range, hi,
    Option.map_some']
  simp only [ringPoint, ringAngle, Option.some.injEq, Vec3.mk.injEq]
  have harg : (i : ℝ) / (count : ℝ) * Real.pi * 2 =
      2 * Real.pi * (i : ℝ) / (count : ℝ) := by ring
  refine ⟨by rw [harg], by rw [harg], by rw [harg]⟩

/-- C6 witness: the placement contract instantiated at count = 8 with the
source constants radius = 1.3, base offset -0.8, amplitude 0.2,
frequency 3, evaluated at i = 3. -/
theorem C6_witness :
    (3 < 8) ∧
    ((placeAroundRing 8 1.3 (-0.8) 0.2 3).length = 8 ∧
     (placeAroundRing 8 1.3 (-0.8) 0.2 3)[3]? =
       some { x := Real.cos (2 * Real.pi * (3 : ℝ) / (8 : ℝ)) * 1.3
              y := -0.8 + Real.sin (2 * Real.pi * (3 : ℝ) / (8 : ℝ) * 3) * 0.2
              z := Real.sin (2 * Real.pi * (3 : ℝ) / (8 : ℝ)) * 1.3 } ∧
     placeAroundRing 0 1.3 (-0.8) 0.2 3 = []) :=
  ⟨by norm_num,
   (C6_placeAroundRing 8 1.3 (-0.8) 0.2 3).1,
   by
     have h := (C6_placeAroundRing 8 1.3 (-0.8) 0.2 3).2.1 3 (by norm_num)
     simpa using h,
   (C6_placeAroundRing 8 1.3 (-0.8) 0.2 3).2.2⟩

/-- C1 counterexample: the claim says the ornament scale is a deterministic
pure function of (index, seed), so two calls of the placement with the same
arguments agree bit for bit. The source draws the scale from the unseeded
ambient Math.random() stream (there is no seed parameter at all); two runs
whose ambient draws differ produce different scales for the same layer. -/
theorem C1_counterexample :
    ¬ (∀ r1 r2 : ℕ → ℝ, placeOrnaments 0 r1 = placeOrnaments 0 r2) := by
  intro h
  have h2 := congrArg (fun lst => (lst[0]?).map Prod.snd)
    (h (fun _ => 0) (fun _ => 1 / 2))
  simp only [placeOrnaments, ornamentCount, ornamentScale, List.getElem?_map,
    List.getElem?_range, Option.map_some'] at h2
  norm_num at h2

/-- C1 amended: the ornament positions are a deterministic pure function of
the index alone (independent of the ambient random draws), and each scale is
0.6 + r * 0.4 with r the i-th ambient Math.random() draw, so the jitter
scale - 0.6 lies in [0, 0.4) whenever the draw lies in [0, 1); but there is
no seed parameter, so two runs reproduce the same (position, scale)
sequence only when their ambient draws coincide. -/
theorem C1_amended :
    (∀ (layerIndex : ℕ) (r1 r2 : ℕ → ℝ),
      (placeOrnaments layerIndex r1).map Prod.fst =
      (placeOrnaments layerIndex r2).map Prod.fst) ∧
    (∀ (rand : ℕ → ℝ) (i : ℕ), 0 ≤ rand i → rand i < 1 →
      0 ≤ ornamentScale rand i - 0.6 ∧ ornamentScale rand i - 0.6 < 0.4) := by
  constructor
  · intro layerIndex r1 r2
    simp [placeOrnaments, List.map_map, Function.comp]
  · intro rand i h0 h1
    unfold ornamentScale
    constructor <;> nlinarith

/-- C1 witness: the amended properties instantiated at layer 0 with the
ambient draws fixed to the constant streams 0 and 1/2, at index 0. -/
theorem C1_witness :
    ((placeOrnaments 0 (fun _ => 0)).map Prod.fst =
      (placeOrnaments 0 (fun _ => (1 : ℝ) / 2)).map Prod.fst) ∧
    ((0 : ℝ) ≤ (1 : ℝ) / 2 ∧ (1 : ℝ) / 2 < 1) ∧
    (0 ≤ ornamentScale (fun _ => (1 : ℝ) / 2) 0 - 0.6 ∧
     ornamentScale (fun _ => (1 : ℝ) / 2) 0 - 0.6 < 0.4) :=
  ⟨C1_amended.1 0 (fun _ => 0) (fun _ => (1 : ℝ) / 2),
   ⟨by norm_num, by norm_num⟩,
   C1_amended.2 (fun _ => (1 : ℝ) / 2) 0 (by norm_num) (by norm_num)⟩

/-- C2 counterexample: the claim says a deltaTime of 0 is rejected and
leaves every node's transform unchanged. In the source no callback
validates the delta: the Ornament callback advances its rotation by the
fixed constants every frame regardless of the delta, so one frame with
deltaTime = 0 already changes the assembled scene. -/
theorem C2_counterexample : tick christmasTree 0 ≠ christmasTree := by
  intro h
  have h2 := congrArg
    (fun sc => ((sc.layers[0]?).map
      (fun l => (l.ornaments[0]?).map OrnamentState.yaw))) h
  simp only [tick, christmasTree, mkLayer, tickLayer, tickOrnament,
    ornamentCount, List.getElem?_map, List.getElem?_cons_zero,
    List.getElem?_replicate, Option.map_some'] at h2
  norm_num [tickOrnament] at h2

/-- C2 amended: tick performs no validation of deltaTime. A frame with
deltaTime = 0 leaves elapsedTime and every layer's yaw unchanged and
recomputes the topper from the unchanged elapsed time, but every
ornament's yaw and roll still advance by the fixed per-frame constants
0.01 and 0.005, so the transforms are not all left unchanged. -/
theorem C2_amended (s : Scene) :
    (tick s 0).elapsedTime = s.elapsedTime ∧
    (tick s 0).layers.map LayerNode.yaw = s.layers.map LayerNode.yaw ∧
    (tick s 0).topper.yaw = s.elapsedTime * 0.5 ∧
    (tick s 0).topper.scale = topperScale s.elapsedTime ∧
    (tick s 0).layers.map LayerNode.ornaments =
      s.layers.map (fun l => l.ornaments.map
        (fun o => { yaw := o.yaw + 0.01, roll := o.roll + 0.005 })) := by
  refine ⟨by simp [tick], ?_, by simp [tick], by simp [tick], ?_⟩
  · simp [tick, tickLayer, List.map_map, Function.comp]
  · simp [tick, tickLayer, tickOrnament, List.map_map, Function.comp]

/-- C4: two layer nodes with adjacent layer indices (one even, one odd) and
equal base rotation speed, starting at yaw 0, end any sequence of valid
ticks totalling T = sum of deltas with yaws of equal magnitude and opposite
sign: the even-indexed layer at +T * speed * 0.5 (the +1 direction) and the
odd-indexed layer at -T * speed * 0.5 (the -1 direction). -/
theorem C4_counter_rotation (s : Scene) (dts : List ℝ)
    (hv : ∀ d ∈ dts, 0 < d) (hne : dts ≠ [])
    (p q : ℕ) (lEven lOdd : LayerNode)
    (hp : s.layers[p]? = some lEven) (hq : s.layers[q]? = some lOdd)
    (heven : lEven.layerIndex % 2 = 0)
    (hadj : lOdd.layerIndex = lEven.layerIndex + 1 ∨
            lEven.layerIndex = lOdd.layerIndex + 1)
    (hspeed : lOdd.rotationSpeed = lEven.rotationSpeed)
    (hpos : 0 < lEven.rotationSpeed)
    (hye : lEven.yaw = 0) (hyo : lOdd.yaw = 0) :
    ∃ l2e l2o, (tickSeq s dts).layers[p]? = some l2e ∧
      (tickSeq s dts).layers[q]? = some l2o ∧
      l2e.yaw = dts.sum * lEven.rotationSpeed * 0.5 ∧
      l2o.yaw = -(dts.sum * lEven.rotationSpeed * 0.5) ∧
      l2e.yaw = -l2o.yaw ∧ |l2e.yaw| = |l2o.yaw| ∧
      0 < l2e.yaw ∧ l2o.yaw < 0 := by
  obtain ⟨l2e, hge, _, _, hyawE, _⟩ := tickSeq_layer_evolution dts s p lEven hp
  obtain ⟨l2o, hgo, _, _, hyawO, _⟩ := tickSeq_layer_evolution dts s q lOdd hq
  have hodd : lOdd.layerIndex % 2 = 1 := by
    rcases hadj with h | h <;> omega
  have hdirE : layerDir lEven.layerIndex = 1 := by
    simp [layerDir, heven]
  have hdirO : layerDir lOdd.layerIndex = -1 := by
    simp [layerDir, hodd]
  have hsum : 0 < dts.sum := List.sum_pos dts hv hne
  have he2 : l2e.yaw = dts.sum * lEven.rotationSpeed * 0.5 := by
    rw [hyawE, hye, hdirE]; ring
  have ho2 : l2o.yaw = -(dts.sum * lEven.rotationSpeed * 0.5) := by
    rw [hyawO, hyo, hdirO, hspeed]; ring
  refine ⟨l2e, l2o, hge, hgo, he2, ho2, ?_, ?_, ?_, ?_⟩
  · rw [he2, ho2]; ring
  · rw [he2, ho2, abs_neg]
  · rw [he2]
    exact mul_pos (mul_pos hsum hpos) (by norm_num)
  · rw [ho2]
    have : 0 < dts.sum * lEven.rotationSpeed * 0.5 :=
      mul_pos (mul_pos hsum hpos) (by norm_num)
    linarith

/-- C4 witness: the counter-rotation law on the assembled scene for the
adjacent layers at positions 1 (layerIndex 2, even) and 2 (layerIndex 1,
odd), both at the default speed 0.2, after the two valid frames [1, 2]. -/
theorem C4_witness :
    ((∀ d ∈ ([1, 2] : List ℝ), 0 < d) ∧ ([1, 2] : List ℝ) ≠ []) ∧
    (∃ l2e l2o, (tickSeq christmasTree [1, 2]).layers[1]? = some l2e ∧
      (tickSeq christmasTree [1, 2]).layers[2]? = some l2o ∧
      l2e.yaw = ([1, 2] : List ℝ).sum * (mkLayer 2).rotationSpeed * 0.5 ∧
      l2o.yaw = -(([1, 2] : List ℝ).sum * (mkLayer 2).rotationSpeed * 0.5) ∧
      (l2e.yaw : ℝ) = -l2o.yaw ∧ |l2e.yaw| = |l2o.yaw| ∧
      0 < l2e.yaw ∧ l2o.yaw < 0) := by
  have hv : ∀ d ∈ ([1, 2] : List ℝ), 0 < d := by
    intro d hd
    simp only [List.mem_cons, List.not_mem_nil, or_false] at hd
    rcases hd with rfl | rfl <;> norm_num
  refine ⟨⟨hv, by simp⟩, ?_⟩
  exact C4_counter_rotation christmasTree [1, 2] hv (by simp) 1 2
    (mkLayer 2) (mkLayer 1) rfl rfl (by norm_num [mkLayer])
    (Or.inr (by norm_num [mkLayer])) rfl (by norm_num [mkLayer]) rfl rfl

/-- C8 counterexample: the claim says every stored rotation is reduced
modulo 2pi each tick and stays in [0, 2pi). The source never reduces: one
valid frame with deltaTime = 100 drives the bottom layer (layerIndex 3,
direction -1) to yaw 100 * 0.2 * (-1) * 0.5 = -10, outside [0, 2pi). -/
theorem C8_counterexample :
    (0 : ℝ) < 100 ∧
    ∃ l2, (tick christmasTree 100).layers[0]? = some l2 ∧ l2.yaw < 0 := by
  refine ⟨by norm_num, tickLayer ((0 : ℝ) + 100) 100 (mkLayer 3), rfl, ?_⟩
  norm_num [tickLayer, mkLayer, layerDir]

/-- C8 amended: rotation accumulates additively with no modulo-2pi
reduction: after any sequence of ticks a layer's stored yaw is exactly its
initial yaw plus (sum of deltas) * speed * direction * 0.5, a quantity that
grows without bound and is not confined to [0, 2pi). -/
theorem C8_amended (s : Scene) (dts : List ℝ) (p : ℕ) (l : LayerNode)
    (hp : s.layers[p]? = some l) :
    ∃ l2, (tickSeq s dts).layers[p]? = some l2 ∧
      l2.yaw = l.yaw + dts.sum * (l.rotationSpeed * layerDir l.layerIndex * 0.5) := by
  obtain ⟨l2, hg, _, _, hyaw, _⟩ := tickSeq_layer_evolution dts s p l hp
  exact ⟨l2, hg, hyaw⟩

/-- C8 witness: the additive yaw formula on the assembled scene's bottom
layer after one frame of deltaTime 100. -/
theorem C8_witness :
    christmasTree.layers[0]? = some (mkLayer 3) ∧
    (∃ l2, (tickSeq christmasTree [100]).layers[0]? = some l2 ∧
      l2.yaw = (mkLayer 3).yaw + ([100] : List ℝ).sum *
        ((mkLayer 3).rotationSpeed * layerDir (mkLayer 3).layerIndex * 0.5)) :=
  ⟨rfl, C8_amended christmasTree [100] 0 (mkLayer 3) rfl⟩

/-- C10: each ornament's rotation advances by the fixed constants 0.01
(yaw) and 0.005 (roll) per rendered frame, independent of each frame's
deltaTime: after any sequence of frames the ornaments of a layer depend
only on the number of frames (the length of the delta list), never on the
delta values themselves. -/
theorem C10_ornament_frames (s : Scene) (dts : List ℝ) (p : ℕ) (l : LayerNode)
    (hp : s.layers[p]? = some l) :
    ∃ l2, (tickSeq s dts).layers[p]? = some l2 ∧
      l2.ornaments = l.ornaments.map (fun o =>
        { yaw := o.yaw + 0.01 * (dts.length : ℝ)
          roll := o.roll + 0.005 * (dts.length : ℝ) }) := by
  obtain ⟨l2, hg, _, _, _, horn⟩ := tickSeq_layer_evolution dts s p l hp
  exact ⟨l2, hg, horn⟩

/-- C10 witness: the frame-count formula on the assembled scene's top layer
after two frames with the very different deltas 5 and 700. -/
theorem C10_witness :
    christmasTree.layers[3]? = some (mkLayer 0) ∧
    (∃ l2, (tickSeq christmasTree [5, 700]).layers[3]? = some l2 ∧
      l2.ornaments = (mkLayer 0).ornaments.map (fun o =>
        { yaw := o.yaw + 0.01 * (([5, 700] : List ℝ).length : ℝ)
          roll := o.roll + 0.005 * (([5, 700] : List ℝ).length : ℝ) })) :=
  ⟨rfl, C10_ornament_frames christmasTree [5, 700] 3 (mkLayer 0) rfl⟩

end TreeSpec
